import Mathlib

/-!
Verification of the authenticated API client of the pm-agent-os web frontend.

The client wraps `fetch` with credential-bearing transport, a uniform tagged
result shape, a refresh-and-retry cycle on 401 responses, and a
redirect-to-login fallback.  We embed the three implementations found in the
source (the canonical refresh-capable `apiFetch`, the no-refresh duplicate
with the login redirect, and the bare duplicate in `apps/web/src/api.ts`) as
pure functions over an explicit network oracle, and the shared
`refreshInFlight` slot as a small operational state machine.
-/

namespace PMAgentOS

/-- The payload carried by a successful result: either the parsed JSON body,
or the empty-object placeholder `{} as T` returned for non-JSON responses. -/
inductive Payload (T : Type) where
  | parsed (t : T)
  | emptyObject
  deriving DecidableEq, Repr

/-- The tagged result type
`{ok: true; data: T} | {ok: false; error: string; status: number}`. -/
inductive ApiResult (T : Type) where
  | ok (data : Payload T)
  | fail (error : String) (status : Nat)
  deriving DecidableEq, Repr

/-- An HTTP response as observed by the client: its status code, the value of
the `content-type` header coerced to a string (`headers.get(...) || ""`), the
body as text (`r.text()`), and the outcome of `r.json()` — a parsed value of
type `T`, or a thrown parse error carrying an optional message. -/
structure Response (T : Type) where
  status : Nat
  contentType : String
  bodyText : String
  json : Except (Option String) T

/-- The outcome of one `fetch` call: a response, or a thrown transport error
carrying an optional message (`e?.message`). -/
inductive FetchOutcome (T : Type) where
  | success (r : Response T)
  | thrown (msg : Option String)

/-- The outcome of the single `fetch` performed by `tryRefresh`: a response
with some status, or a thrown transport error. -/
inductive RefreshNet where
  | resp (status : Nat)
  | thrown
  deriving DecidableEq, Repr

/-- A network oracle for one `apiFetch` call: the outcome of the first
request, of the refresh request (if made), and of the retried request
(if made). -/
structure Network (T : Type) where
  first : FetchOutcome T
  refresh : RefreshNet
  retry : FetchOutcome T

/-- `Response.ok` of the fetch API: status in the 2xx range. -/
def respOk (s : Nat) : Bool := decide (200 ≤ s) && decide (s ≤ 299)

/-- JavaScript `s.includes(sub)`: substring containment. -/
def stringIncludes (s sub : String) : Bool := decide (sub.toList <:+: s.toList)

/-- The request actually put on the wire, after `apiFetch` merges its
defaults into the caller-supplied `RequestInit`. -/
structure Request where
  url : String
  method : Option String
  headers : List (String × String)
  body : Option String
  credentialsInclude : Bool
  deriving DecidableEq

/-- The caller-supplied `RequestInit` fields the client reads. -/
structure Opts where
  method : Option String := none
  headers : List (String × String) := []
  body : Option String := none
  deriving DecidableEq

/-- The `doFetch` request: `fetch(API_BASE + path, {...opts,
credentials: "include", headers: {"Content-Type": "application/json",
...opts.headers}})`.  Spread semantics make caller headers override the
default, modelled by listing the default first. -/
def mkRequest (base path : String) (opts : Opts) : Request :=
  { url := base ++ path
    method := opts.method
    headers := ("Content-Type", "application/json") :: opts.headers
    body := opts.body
    credentialsInclude := true }

/-- `redirectToLogin` navigates to `/login` iff the current path starts with
neither `/login` nor `/register`; returns whether navigation happened. -/
def redirectToLogin (browserPath : String) : Bool :=
  !(browserPath.startsWith "/login") && !(browserPath.startsWith "/register")

/-- The fixed request issued by `tryRefresh`: POST `{}` to
`API_BASE + "/auth/refresh"` with credentials included. -/
def refreshRequest (base : String) : Request :=
  { url := base ++ "/auth/refresh"
    method := some "POST"
    headers := [("Content-Type", "application/json")]
    body := some "{}"
    credentialsInclude := true }

/-- `tryRefresh`: resolves to `r.ok` of the refresh response, and to `false`
when the fetch throws (the `catch` branch). -/
def tryRefresh (net : RefreshNet) : Bool :=
  match net with
  | .resp s => respOk s
  | .thrown => false

/-- What one `apiFetch` call did: its returned result, the requests it issued
through `doFetch`, how many refresh cycles it joined, and whether it
navigated to `/login`. -/
structure ApiOutcome (T : Type) where
  result : ApiResult T
  mainRequests : List Request
  refreshCalls : Nat
  navigated : Bool
  deriving DecidableEq

/-- `text || "HTTP " + status`: the failure message synthesized when the
body text is empty. -/
def failText {T : Type} (r : Response T) : String :=
  if r.bodyText = "" then "HTTP " ++ toString r.status else r.bodyText

/-- The tail of `apiFetch` applied to the terminal response `r`:
`if (!r.ok) {...}`, the content-type check, and `r.json()` (whose thrown
parse error lands in the outer catch as a status-0 failure).  Returns the
result together with whether the login redirect fired. -/
def handleResponse {T : Type} (r : Response T) (browserPath : String) :
    ApiResult T × Bool :=
  if !(respOk r.status) then
    (.fail (failText r) r.status, r.status == 401 && redirectToLogin browserPath)
  else if !(stringIncludes r.contentType "application/json") then
    (.ok .emptyObject, false)
  else
    match r.json with
    | .ok t => (.ok (.parsed t), false)
    | .error m => (.fail (m.getD "Network error") 0, false)

/-- The canonical refresh-capable `apiFetch`: first request; on a 401, one
refresh via `refreshOnce` and, if it succeeds, one retry of the identical
request; then the terminal response handling; every thrown error is caught
and converted to a status-0 failure. -/
def apiFetch {T : Type} (base path : String) (opts : Opts)
    (browserPath : String) (net : Network T) : ApiOutcome T :=
  let req := mkRequest base path opts
  match net.first with
  | .thrown m =>
      { result := .fail (m.getD "Network error") 0
        mainRequests := [req], refreshCalls := 0, navigated := false }
  | .success r =>
      if r.status == 401 then
        if tryRefresh net.refresh then
          match net.retry with
          | .thrown m =>
              { result := .fail (m.getD "Network error") 0
                mainRequests := [req, req], refreshCalls := 1, navigated := false }
          | .success r2 =>
              let (res, nav) := handleResponse r2 browserPath
              { result := res, mainRequests := [req, req]
                refreshCalls := 1, navigated := nav }
        else
          let (res, nav) := handleResponse r browserPath
          { result := res, mainRequests := [req]
            refreshCalls := 1, navigated := nav }
      else
        let (res, nav) := handleResponse r browserPath
        { result := res, mainRequests := [req]
          refreshCalls := 0, navigated := nav }

/-- The no-refresh duplicate client (second implementation in the same
module): one request, `redirectToLoginIfNeeded` on a non-2xx 401, the same
terminal handling, no refresh and no retry. -/
def apiFetchNoRefresh {T : Type} (base path : String) (opts : Opts)
    (browserPath : String) (first : FetchOutcome T) : ApiOutcome T :=
  let req := mkRequest base path opts
  match first with
  | .thrown m =>
      { result := .fail (m.getD "Network error") 0
        mainRequests := [req], refreshCalls := 0, navigated := false }
  | .success r =>
      if !(respOk r.status) then
        { result := .fail (failText r) r.status
          mainRequests := [req], refreshCalls := 0
          navigated := r.status == 401 && redirectToLogin browserPath }
      else if !(stringIncludes r.contentType "application/json") then
        { result := .ok .emptyObject
          mainRequests := [req], refreshCalls := 0, navigated := false }
      else
        match r.json with
        | .ok t =>
            { result := .ok (.parsed t)
              mainRequests := [req], refreshCalls := 0, navigated := false }
        | .error m =>
            { result := .fail (m.getD "Network error") 0
              mainRequests := [req], refreshCalls := 0, navigated := false }

/-- The bare duplicate client in `apps/web/src/api.ts`: one request, no
redirect, no content-type check — `r.json()` is called on every 2xx
response, its thrown parse error becoming a status-0 failure. -/
def apiFetchWeb {T : Type} (base path : String) (opts : Opts)
    (first : FetchOutcome T) : ApiOutcome T :=
  let req := mkRequest base path opts
  match first with
  | .thrown m =>
      { result := .fail (m.getD "Network error") 0
        mainRequests := [req], refreshCalls := 0, navigated := false }
  | .success r =>
      if !(respOk r.status) then
        { result := .fail (failText r) r.status
          mainRequests := [req], refreshCalls := 0, navigated := false }
      else
        match r.json with
        | .ok t =>
            { result := .ok (.parsed t)
              mainRequests := [req], refreshCalls := 0, navigated := false }
        | .error m =>
            { result := .fail (m.getD "Network error") 0
              mainRequests := [req], refreshCalls := 0, navigated := false }

/-!
## Concurrency model of the shared `refreshInFlight` slot

The host is single-threaded and event-loop driven: callers interleave only at
network suspension points.  `refreshOnce` runs its check-and-assign of the
module-level `refreshInFlight` slot synchronously (there is no `await`
between the null check and the assignment), so it is one atomic event; the
`finally` handler clears the slot when the refresh network call settles.
-/

/-- Phase of one concurrent `apiFetch` caller within the refresh flow. -/
inductive CPhase where
  | waiting
  | joined (rid : Nat)
  | resumed (ok : Bool)
  deriving DecidableEq, Repr

/-- Global state: the phase of each of `n` callers, the `refreshInFlight`
slot (holding the id of the in-flight refresh call, if any), how many refresh
network calls have been issued (ids `0, ..., issued - 1`), and the recorded
outcome of each settled refresh call. -/
structure CState (n : Nat) where
  callers : Fin n → CPhase
  inFlight : Option Nat
  issued : Nat
  outcome : Nat → Option Bool

/-- All callers awaiting their first response; no refresh ever issued. -/
def initState (n : Nat) : CState n :=
  { callers := fun _ => .waiting
    inFlight := none
    issued := 0
    outcome := fun _ => none }

/-- The synchronous body of `refreshOnce` run by caller `i`: if no refresh is
in flight, issue a new refresh network call and store it in the slot; either
way `i` then awaits the in-flight refresh. -/
def refreshOnceStep {n : Nat} (s : CState n) (i : Fin n) : CState n :=
  match s.inFlight with
  | some r => { s with callers := Function.update s.callers i (.joined r) }
  | none =>
      { s with
          callers := Function.update s.callers i (.joined s.issued)
          inFlight := some s.issued
          issued := s.issued + 1 }

/-- The in-flight refresh call `r` settles with outcome `b`; the `finally`
handler clears the slot unconditionally, success or failure. -/
def settleStep {n : Nat} (s : CState n) (r : Nat) (b : Bool) : CState n :=
  { s with inFlight := none, outcome := Function.update s.outcome r (some b) }

/-- One event-loop step: a caller's first response arrives as a 401 and it
runs `refreshOnce`; the in-flight refresh settles; or a caller awaiting a
settled refresh resumes with its outcome. -/
inductive CStep {n : Nat} : CState n → CState n → Prop where
  | observe401 (s : CState n) (i : Fin n) (h : s.callers i = .waiting) :
      CStep s (refreshOnceStep s i)
  | settle (s : CState n) (r : Nat) (b : Bool) (h : s.inFlight = some r) :
      CStep s (settleStep s r b)
  | resume (s : CState n) (i : Fin n) (r : Nat) (b : Bool)
      (h1 : s.callers i = .joined r) (h2 : s.outcome r = some b) :
      CStep s { s with callers := Function.update s.callers i (.resumed b) }

/-- States reachable from the initial state by event-loop steps. -/
inductive Reachable {n : Nat} : CState n → Prop where
  | init : Reachable (initState n)
  | step {s s' : CState n} : Reachable s → CStep s s' → Reachable s'

/-- Refresh network call `r` has been issued but has not settled. -/
def pendingRefresh {n : Nat} (s : CState n) (r : Nat) : Prop :=
  r < s.issued ∧ s.outcome r = none

/-- A batch of callers each observing a 401 (in this order), with no other
event interleaved. -/
def observeAll {n : Nat} (l : List (Fin n)) (s : CState n) : CState n :=
  l.foldl refreshOnceStep s

/-- The slot invariant: a refresh call is issued-but-unsettled exactly when
the slot holds it, and ids not yet issued have no recorded outcome. -/
def SlotInv {n : Nat} (s : CState n) : Prop :=
  (∀ r, pendingRefresh s r ↔ s.inFlight = some r)
  ∧ (∀ r, s.issued ≤ r → s.outcome r = none)

theorem refreshOnceStep_some {n : Nat} (s : CState n) (i : Fin n) (r : Nat)
    (h : s.inFlight = some r) :
    refreshOnceStep s i
      = { s with callers := Function.update s.callers i (.joined r) } := by
  unfold refreshOnceStep
  rw [h]

theorem refreshOnceStep_none {n : Nat} (s : CState n) (i : Fin n)
    (h : s.inFlight = none) :
    refreshOnceStep s i
      = { s with
            callers := Function.update s.callers i (.joined s.issued)
            inFlight := some s.issued
            issued := s.issued + 1 } := by
  unfold refreshOnceStep
  rw [h]

theorem slotInv_init (n : Nat) : SlotInv (initState n) := by
  constructor
  · intro r
    simp [pendingRefresh, initState]
  · intro r _
    rfl

theorem slotInv_congr {n : Nat} {s s' : CState n} (h : SlotInv s)
    (hf : s'.inFlight = s.inFlight) (hi : s'.issued = s.issued)
    (ho : s'.outcome = s.outcome) : SlotInv s' := by
  obtain ⟨h1, h2⟩ := h
  constructor
  · intro r
    rw [pendingRefresh, hf, hi, ho]
    exact h1 r
  · intro r hr
    rw [ho]
    exact h2 r (hi ▸ hr)

theorem slotInv_step {n : Nat} {s s' : CState n} (hs : SlotInv s)
    (h : CStep s s') : SlotInv s' := by
  obtain ⟨h1, h2⟩ := hs
  cases h with
  | observe401 i hi =>
      cases hfl : s.inFlight with
      | some r =>
          rw [refreshOnceStep_some s i r hfl]
          exact slotInv_congr ⟨h1, h2⟩ rfl rfl rfl
      | none =>
          rw [refreshOnceStep_none s i hfl]
          constructor
          · intro r'
            simp only [pendingRefresh]
            constructor
            · rintro ⟨hlt, hout⟩
              by_cases hr' : r' = s.issued
              · simp [hr']
              · have hlt' : r' < s.issued := by omega
                have := (h1 r').mp ⟨hlt', hout⟩
                rw [hfl] at this
                exact absurd this (by simp)
            · intro hsome
              have he : r' = s.issued := (Option.some.inj hsome).symm
              subst he
              exact ⟨Nat.lt_succ_self _, h2 _ le_rfl⟩
          · intro r' hr'
            have hr'' : s.issued + 1 ≤ r' := hr'
            exact h2 r' (by omega)
  | settle r b hr =>
      have hrlt : r < s.issued := ((h1 r).mpr hr).1
      constructor
      · intro r'
        simp only [pendingRefresh, settleStep]
        constructor
        · rintro ⟨hlt, hout⟩
          by_cases hrr : r' = r
          · subst hrr
            simp at hout
          · rw [Function.update_noteq hrr] at hout
            have := (h1 r').mp ⟨hlt, hout⟩
            rw [hr] at this
            exact absurd (Option.some.inj this).symm hrr
        · intro hcon
          simp at hcon
      · intro r' hr'
        simp only [settleStep] at hr' ⊢
        have hne : r' ≠ r := by omega
        rw [Function.update_noteq hne]
        exact h2 r' hr'
  | resume i r b hc ho =>
      exact slotInv_congr ⟨h1, h2⟩ rfl rfl rfl

theorem slotInv_reachable {n : Nat} {s : CState n} (h : Reachable s) :
    SlotInv s := by
  induction h with
  | init => exact slotInv_init n
  | step _ hstep ih => exact slotInv_step ih hstep

theorem observeAll_inFlight_frozen {n : Nat} (l : List (Fin n)) (s : CState n)
    (r : Nat) (h : s.inFlight = some r) :
    (observeAll l s).inFlight = some r ∧ (observeAll l s).issued = s.issued := by
  induction l generalizing s with
  | nil => exact ⟨h, rfl⟩
  | cons j t ih =>
      have hs1 : observeAll (j :: t) s = observeAll t (refreshOnceStep s j) := rfl
      rw [hs1, refreshOnceStep_some s j r h]
      exact ih _ h

theorem observeAll_joined_frozen {n : Nat} (l : List (Fin n)) (s : CState n)
    (r : Nat) (i : Fin n) (h : s.inFlight = some r)
    (hc : s.callers i = .joined r) :
    (observeAll l s).callers i = .joined r := by
  induction l generalizing s with
  | nil => exact hc
  | cons j t ih =>
      have hs1 : observeAll (j :: t) s = observeAll t (refreshOnceStep s j) := rfl
      rw [hs1, refreshOnceStep_some s j r h]
      refine ih _ h ?_
      by_cases hij : i = j
      · subst hij
        simp
      · simpa [Function.update_noteq hij] using hc

theorem observeAll_mem_joined {n : Nat} (l : List (Fin n)) (s : CState n)
    (r : Nat) (i : Fin n) (h : s.inFlight = some r) (hi : i ∈ l) :
    (observeAll l s).callers i = .joined r := by
  induction l generalizing s with
  | nil => cases hi
  | cons j t ih =>
      have hs1 : observeAll (j :: t) s = observeAll t (refreshOnceStep s j) := rfl
      rw [hs1, refreshOnceStep_some s j r h]
      rcases List.mem_cons.mp hi with hij | hit
      · subst hij
        refine observeAll_joined_frozen t _ r i h ?_
        simp
      · exact ih _ h hit

/-!
## Characterization lemmas
-/

theorem handleResponse_not_ok {T : Type} (r : Response T) (browserPath : String)
    (h : respOk r.status = false) :
    handleResponse r browserPath
      = (.fail (failText r) r.status,
         r.status == 401 && redirectToLogin browserPath) := by
  simp [handleResponse, h]

theorem handleResponse_ok_nonjson {T : Type} (r : Response T)
    (browserPath : String) (h1 : respOk r.status = true)
    (h2 : stringIncludes r.contentType "application/json" = false) :
    handleResponse r browserPath = (.ok .emptyObject, false) := by
  simp [handleResponse, h1, h2]

theorem handleResponse_ok_json {T : Type} (r : Response T)
    (browserPath : String) (t : T) (h1 : respOk r.status = true)
    (h2 : stringIncludes r.contentType "application/json" = true)
    (h3 : r.json = .ok t) :
    handleResponse r browserPath = (.ok (.parsed t), false) := by
  simp [handleResponse, h1, h2, h3]

theorem handleResponse_parse_error {T : Type} (r : Response T)
    (browserPath : String) (m : Option String) (h1 : respOk r.status = true)
    (h2 : stringIncludes r.contentType "application/json" = true)
    (h3 : r.json = .error m) :
    handleResponse r browserPath = (.fail (m.getD "Network error") 0, false) := by
  simp [handleResponse, h1, h2, h3]

theorem apiFetch_first_thrown {T : Type} (base path : String) (opts : Opts)
    (browserPath : String) (net : Network T) (m : Option String)
    (h1 : net.first = .thrown m) :
    apiFetch base path opts browserPath net
      = { result := .fail (m.getD "Network error") 0
          mainRequests := [mkRequest base path opts]
          refreshCalls := 0
          navigated := false } := by
  simp [apiFetch, h1]

theorem apiFetch_first_not401 {T : Type} (base path : String) (opts : Opts)
    (browserPath : String) (net : Network T) (r : Response T)
    (h1 : net.first = .success r) (hne : (r.status == 401) = false) :
    apiFetch base path opts browserPath net
      = { result := (handleResponse r browserPath).1
          mainRequests := [mkRequest base path opts]
          refreshCalls := 0
          navigated := (handleResponse r browserPath).2 } := by
  rcases hh : handleResponse r browserPath with ⟨res, nav⟩
  simp [apiFetch, h1, hne, hh]

theorem apiFetch_refresh_failed {T : Type} (base path : String) (opts : Opts)
    (browserPath : String) (net : Network T) (r : Response T)
    (h1 : net.first = .success r) (h2 : (r.status == 401) = true)
    (hR : tryRefresh net.refresh = false) :
    apiFetch base path opts browserPath net
      = { result := (handleResponse r browserPath).1
          mainRequests := [mkRequest base path opts]
          refreshCalls := 1
          navigated := (handleResponse r browserPath).2 } := by
  rcases hh : handleResponse r browserPath with ⟨res, nav⟩
  simp [apiFetch, h1, h2, hR, hh]

theorem apiFetch_retry_success {T : Type} (base path : String) (opts : Opts)
    (browserPath : String) (net : Network T) (r r2 : Response T)
    (h1 : net.first = .success r) (h2 : (r.status == 401) = true)
    (hR : tryRefresh net.refresh = true) (h3 : net.retry = .success r2) :
    apiFetch base path opts browserPath net
      = { result := (handleResponse r2 browserPath).1
          mainRequests := [mkRequest base path opts, mkRequest base path opts]
          refreshCalls := 1
          navigated := (handleResponse r2 browserPath).2 } := by
  rcases hh : handleResponse r2 browserPath with ⟨res, nav⟩
  simp [apiFetch, h1, h2, hR, h3, hh]

theorem apiFetch_retry_thrown {T : Type} (base path : String) (opts : Opts)
    (browserPath : String) (net : Network T) (r : Response T) (m : Option String)
    (h1 : net.first = .success r) (h2 : (r.status == 401) = true)
    (hR : tryRefresh net.refresh = true) (h3 : net.retry = .thrown m) :
    apiFetch base path opts browserPath net
      = { result := .fail (m.getD "Network error") 0
          mainRequests := [mkRequest base path opts, mkRequest base path opts]
          refreshCalls := 1
          navigated := false } := by
  simp [apiFetch, h1, h2, hR, h3]

theorem apiFetchNoRefresh_success {T : Type} (base path : String) (opts : Opts)
    (browserPath : String) (r : Response T) :
    apiFetchNoRefresh base path opts browserPath (.success r)
      = { result := (handleResponse r browserPath).1
          mainRequests := [mkRequest base path opts]
          refreshCalls := 0
          navigated := (handleResponse r browserPath).2 } := by
  by_cases hok : respOk r.status
  · by_cases hct : stringIncludes r.contentType "application/json"
    · cases hj : r.json with
      | ok t => simp [apiFetchNoRefresh, handleResponse, hok, hct, hj]
      | error m => simp [apiFetchNoRefresh, handleResponse, hok, hct, hj]
    · simp [apiFetchNoRefresh, handleResponse, hok,
        (Bool.not_eq_true _).mp hct]
  · simp [apiFetchNoRefresh, handleResponse, (Bool.not_eq_true _).mp hok]

theorem apiFetchNoRefresh_thrown {T : Type} (base path : String) (opts : Opts)
    (browserPath : String) (m : Option String) :
    apiFetchNoRefresh base path opts browserPath (FetchOutcome.thrown (T := T) m)
      = { result := .fail (m.getD "Network error") 0
          mainRequests := [mkRequest base path opts]
          refreshCalls := 0
          navigated := false } := by
  simp [apiFetchNoRefresh]

theorem respOk_ne_401 {s : Nat} (h : respOk s = true) : (s == 401) = false := by
  simp only [respOk, Bool.and_eq_true, decide_eq_true_eq] at h
  simpa using by omega

/-!
## Claim theorems
-/

/-- C1: for every request path, every option record, every browser location
and every network behavior (any responses or thrown transport errors), the
canonical `apiFetch` never throws: it always returns a tagged result that is
either `ok data` or `fail error status` with `error : String` and
`status : Nat`. -/
theorem apiFetch_never_throws {T : Type} (base path : String) (opts : Opts)
    (browserPath : String) (net : Network T) :
    (∃ d, (apiFetch base path opts browserPath net).result = .ok d)
    ∨ (∃ (e : String) (s : Nat),
        (apiFetch base path opts browserPath net).result = .fail e s) := by
  cases hres : (apiFetch base path opts browserPath net).result with
  | ok d => exact Or.inl ⟨d, rfl⟩
  | fail e s => exact Or.inr ⟨e, s, rfl⟩

/-- C2: when the first response has status 401, the client joins exactly one
refresh cycle; if the refresh succeeds it re-issues the identical request
exactly once and produces its result from that retried response (the same
result the no-refresh terminal handling would give it); if the refresh fails
it produces the failure result from the original 401 response with no retry
and no second refresh. -/
theorem apiFetch_refresh_retry_once {T : Type} (base path : String)
    (opts : Opts) (browserPath : String) (net : Network T) (r : Response T)
    (h1 : net.first = .success r) (h2 : r.status = 401) :
    (apiFetch base path opts browserPath net).refreshCalls = 1
    ∧ (tryRefresh net.refresh = true →
        (apiFetch base path opts browserPath net).mainRequests
          = [mkRequest base path opts, mkRequest base path opts]
        ∧ (apiFetch base path opts browserPath net).result
          = (apiFetchNoRefresh base path opts browserPath net.retry).result)
    ∧ (tryRefresh net.refresh = false →
        (apiFetch base path opts browserPath net).mainRequests
          = [mkRequest base path opts]
        ∧ (apiFetch base path opts browserPath net).result
          = .fail (failText r) 401) := by
  have h2' : (r.status == 401) = true := by simp [h2]
  cases hR : tryRefresh net.refresh with
  | true =>
      refine ⟨?_, ?_, ?_⟩
      · cases h3 : net.retry with
        | success r2 => rw [apiFetch_retry_success base path opts browserPath net r r2 h1 h2' hR h3]
        | thrown m => rw [apiFetch_retry_thrown base path opts browserPath net r m h1 h2' hR h3]
      · intro _
        constructor
        · cases h3 : net.retry with
          | success r2 => rw [apiFetch_retry_success base path opts browserPath net r r2 h1 h2' hR h3]
          | thrown m => rw [apiFetch_retry_thrown base path opts browserPath net r m h1 h2' hR h3]
        · cases h3 : net.retry with
          | success r2 =>
              rw [apiFetch_retry_success base path opts browserPath net r r2 h1 h2' hR h3,
                apiFetchNoRefresh_success base path opts browserPath r2]
          | thrown m =>
              rw [apiFetch_retry_thrown base path opts browserPath net r m h1 h2' hR h3,
                apiFetchNoRefresh_thrown base path opts browserPath m]
      · intro hc
        cases hc
  | false =>
      rw [apiFetch_refresh_failed base path opts browserPath net r h1 h2' hR,
        handleResponse_not_ok r browserPath (by simp [respOk, h2])]
      refine ⟨rfl, ?_, ?_⟩
      · intro hc
        cases hc
      · intro _
        exact ⟨rfl, by simp [h2]⟩

/-- C3: for a terminal 2xx response (the first response, or the retried
response after a successful refresh): if its content type declares JSON the
result is `ok` with the parsed body, and if it does not, the result is `ok`
with the empty-object payload. -/
theorem apiFetch_success_payload {T : Type} (base path : String) (opts : Opts)
    (browserPath : String) (net : Network T) :
    (∀ r : Response T, net.first = .success r → respOk r.status = true →
      (stringIncludes r.contentType "application/json" = true →
        ∀ t, r.json = .ok t →
          (apiFetch base path opts browserPath net).result = .ok (.parsed t))
      ∧ (stringIncludes r.contentType "application/json" = false →
          (apiFetch base path opts browserPath net).result = .ok .emptyObject))
    ∧ (∀ r r2 : Response T, net.first = .success r → r.status = 401 →
        tryRefresh net.refresh = true → net.retry = .success r2 →
        respOk r2.status = true →
        (stringIncludes r2.contentType "application/json" = true →
          ∀ t, r2.json = .ok t →
            (apiFetch base path opts browserPath net).result = .ok (.parsed t))
        ∧ (stringIncludes r2.contentType "application/json" = false →
            (apiFetch base path opts browserPath net).result
              = .ok .emptyObject)) := by
  constructor
  · intro r h1 hok
    rw [apiFetch_first_not401 base path opts browserPath net r h1 (respOk_ne_401 hok)]
    constructor
    · intro hct t hj
      rw [handleResponse_ok_json r browserPath t hok hct hj]
    · intro hct
      rw [handleResponse_ok_nonjson r browserPath hok hct]
  · intro r r2 h1 h2 hR h3 hok
    rw [apiFetch_retry_success base path opts browserPath net r r2 h1 (by simp [h2]) hR h3]
    constructor
    · intro hct t hj
      rw [handleResponse_ok_json r2 browserPath t hok hct hj]
    · intro hct
      rw [handleResponse_ok_nonjson r2 browserPath hok hct]

/-- C4: for a terminal non-2xx response, the client navigates to `/login`
exactly when the terminal status is 401 and the browser path starts with
neither `/login` nor `/register`, and it returns `ok: false` with the
response body text (or `HTTP <status>` when the body is empty) and the
numeric status. -/
theorem apiFetch_failure_taxonomy {T : Type} (base path : String)
    (opts : Opts) (browserPath : String) (net : Network T) :
    (∀ r : Response T, net.first = .success r → respOk r.status = false →
      (r.status == 401) = false →
      (apiFetch base path opts browserPath net).result
        = .fail (if r.bodyText = "" then "HTTP " ++ toString r.status
                 else r.bodyText) r.status
      ∧ (apiFetch base path opts browserPath net).navigated = false)
    ∧ (∀ r : Response T, net.first = .success r → r.status = 401 →
        tryRefresh net.refresh = false →
        (apiFetch base path opts browserPath net).result
          = .fail (if r.bodyText = "" then "HTTP 401" else r.bodyText) 401
        ∧ (apiFetch base path opts browserPath net).navigated
            = (!(browserPath.startsWith "/login")
               && !(browserPath.startsWith "/register")))
    ∧ (∀ r r2 : Response T, net.first = .success r → r.status = 401 →
        tryRefresh net.refresh = true → net.retry = .success r2 →
        respOk r2.status = false →
        (apiFetch base path opts browserPath net).result
          = .fail (if r2.bodyText = "" then "HTTP " ++ toString r2.status
                   else r2.bodyText) r2.status
        ∧ (apiFetch base path opts browserPath net).navigated
            = (r2.status == 401 && (!(browserPath.startsWith "/login")
               && !(browserPath.startsWith "/register")))) := by
  refine ⟨?_, ?_, ?_⟩
  · intro r h1 hok hne
    rw [apiFetch_first_not401 base path opts browserPath net r h1 hne,
      handleResponse_not_ok r browserPath hok]
    exact ⟨rfl, by simp [hne]⟩
  · intro r h1 h2 hR
    rw [apiFetch_refresh_failed base path opts browserPath net r h1 (by simp [h2]) hR,
      handleResponse_not_ok r browserPath (by simp [respOk, h2])]
    have hs : "HTTP " ++ toString (401 : Nat) = "HTTP 401" := by decide
    exact ⟨by simp [failText, h2, hs], by simp [h2, redirectToLogin]⟩
  · intro r r2 h1 h2 hR h3 hok
    rw [apiFetch_retry_success base path opts browserPath net r r2 h1 (by simp [h2]) hR h3,
      handleResponse_not_ok r2 browserPath hok]
    exact ⟨rfl, by simp [redirectToLogin]⟩

/-- C5: whenever the underlying fetch throws (on the first request, or on
the retried request after a successful refresh), `apiFetch` returns a
failure with status 0 and the thrown error's message, defaulting to
`Network error` when no message is available. -/
theorem apiFetch_transport_failure {T : Type} (base path : String)
    (opts : Opts) (browserPath : String) (net : Network T) :
    (∀ m, net.first = .thrown m →
      (apiFetch base path opts browserPath net).result
        = .fail (m.getD "Network error") 0)
    ∧ (∀ (r : Response T) (m : Option String), net.first = .success r →
        r.status = 401 → tryRefresh net.refresh = true →
        net.retry = .thrown m →
        (apiFetch base path opts browserPath net).result
          = .fail (m.getD "Network error") 0) := by
  constructor
  · intro m h1
    rw [apiFetch_first_thrown base path opts browserPath net m h1]
  · intro r m h1 h2 hR h3
    rw [apiFetch_retry_thrown base path opts browserPath net r m h1 (by simp [h2]) hR h3]

/-- C6: `tryRefresh` issues one POST of the empty JSON object body to the
fixed `/auth/refresh` endpoint with credentials included; it resolves to
`true` exactly when that response has a 2xx status, and to `false` on a
thrown transport error (it performs no redirect and no recursive refresh —
it is a bare fetch, not an `apiFetch`). -/
theorem tryRefresh_contract (base : String) :
    (refreshRequest base).url = base ++ "/auth/refresh"
    ∧ (refreshRequest base).method = some "POST"
    ∧ (refreshRequest base).body = some "{}"
    ∧ (refreshRequest base).credentialsInclude = true
    ∧ (∀ s : Nat, tryRefresh (.resp s) = true ↔ 200 ≤ s ∧ s ≤ 299)
    ∧ tryRefresh .thrown = false := by
  refine ⟨rfl, rfl, rfl, rfl, ?_, rfl⟩
  intro s
  simp [tryRefresh, respOk]

/-- C7: in any reachable state at most one refresh network call is in
flight; when any nonempty batch of concurrent callers each observe a 401
with no other event interleaved, exactly one refresh network call is issued
and every caller of the batch joins it, so after it settles with outcome `b`
they all observe that single outcome; and settling clears the
`refreshInFlight` slot unconditionally, for success and failure alike. -/
theorem refresh_slot_dedup (n : Nat) :
    (∀ s : CState n, Reachable s → ∀ r1 r2 : Nat,
        pendingRefresh s r1 → pendingRefresh s r2 → r1 = r2)
    ∧ (∀ (i0 : Fin n) (rest : List (Fin n)) (b : Bool),
        (observeAll (i0 :: rest) (initState n)).issued = 1
        ∧ (observeAll (i0 :: rest) (initState n)).inFlight = some 0
        ∧ (∀ i, i ∈ i0 :: rest →
            (observeAll (i0 :: rest) (initState n)).callers i = .joined 0)
        ∧ (settleStep (observeAll (i0 :: rest) (initState n)) 0 b).inFlight
            = none
        ∧ (settleStep (observeAll (i0 :: rest) (initState n)) 0 b).outcome 0
            = some b
        ∧ (∀ i, i ∈ i0 :: rest →
            (settleStep (observeAll (i0 :: rest) (initState n)) 0 b).callers i
              = .joined 0))
    ∧ (∀ (s : CState n) (r : Nat) (b : Bool), s.inFlight = some r →
        (settleStep s r b).inFlight = none) := by
  refine ⟨?_, ?_, ?_⟩
  · intro s hs r1 r2 hp1 hp2
    obtain ⟨h1, _⟩ := slotInv_reachable hs
    have e1 := (h1 r1).mp hp1
    have e2 := (h1 r2).mp hp2
    rw [e1] at e2
    exact Option.some.inj e2
  · intro i0 rest b
    have hstep : observeAll (i0 :: rest) (initState n)
        = observeAll rest (refreshOnceStep (initState n) i0) := rfl
    have hfl : (refreshOnceStep (initState n) i0).inFlight = some 0 := by
      rw [refreshOnceStep_none (initState n) i0 rfl]
      rfl
    have hfrozen := observeAll_inFlight_frozen rest _ 0 hfl
    have hjoin : ∀ i, i ∈ i0 :: rest →
        (observeAll (i0 :: rest) (initState n)).callers i = .joined 0 := by
      intro i hi
      rw [hstep]
      rcases List.mem_cons.mp hi with hii | hit
      · subst hii
        refine observeAll_joined_frozen rest _ 0 i hfl ?_
        rw [refreshOnceStep_none (initState n) i rfl]
        simp [initState]
      · exact observeAll_mem_joined rest _ 0 i hfl hit
    refine ⟨?_, ?_, hjoin, rfl, ?_, ?_⟩
    · rw [hstep]
      have := hfrozen.2
      rw [this, refreshOnceStep_none (initState n) i0 rfl]
      rfl
    · rw [hstep]
      exact hfrozen.1
    · simp [settleStep]
    · intro i hi
      exact hjoin i hi
  · intro s r b _
    rfl

/-- C8 as frozen is false: on a 2xx response whose content type does not
declare JSON, the `apps/web/src/api.ts` duplicate parses the body (here to
`7`) while the canonical refresh-capable client returns the empty-object
success, so their results differ even though the first response is not a
401. -/
theorem apiFetchWeb_diverges_from_canonical :
    ¬ ((apiFetchWeb "b" "/w" {} (.success ⟨200, "text/plain", "", .ok (7 : Nat)⟩)).result
        = (apiFetch "b" "/w" {} "/p"
            ⟨.success ⟨200, "text/plain", "", .ok (7 : Nat)⟩,
             RefreshNet.thrown, .thrown none⟩).result) := by
  decide

/-- C8 amended: for every request whose first response does not have status
401, the no-refresh duplicate in the client module returns exactly the
canonical result (and the same redirect behavior); the bare duplicate in
`apps/web/src/api.ts` returns the canonical result on thrown transport
errors, on non-2xx responses, and on 2xx responses whose content type
declares JSON — but not on 2xx responses with a non-JSON content type, where
it parses the body instead of returning the empty-object payload. -/
theorem duplicate_clients_refine_canonical {T : Type} (base path : String)
    (opts : Opts) (browserPath : String) (net : Network T) :
    (∀ r : Response T, net.first = .success r → (r.status == 401) = false →
      (apiFetchNoRefresh base path opts browserPath net.first).result
        = (apiFetch base path opts browserPath net).result
      ∧ (apiFetchNoRefresh base path opts browserPath net.first).navigated
        = (apiFetch base path opts browserPath net).navigated)
    ∧ (∀ m, net.first = .thrown m →
      (apiFetchNoRefresh base path opts browserPath net.first).result
        = (apiFetch base path opts browserPath net).result
      ∧ (apiFetchWeb base path opts net.first).result
        = (apiFetch base path opts browserPath net).result)
    ∧ (∀ r : Response T, net.first = .success r → (r.status == 401) = false →
      (respOk r.status = false
        ∨ stringIncludes r.contentType "application/json" = true) →
      (apiFetchWeb base path opts net.first).result
        = (apiFetch base path opts browserPath net).result) := by
  refine ⟨?_, ?_, ?_⟩
  · intro r h1 hne
    rw [apiFetch_first_not401 base path opts browserPath net r h1 hne, h1,
      apiFetchNoRefresh_success base path opts browserPath r]
    exact ⟨rfl, rfl⟩
  · intro m h1
    rw [apiFetch_first_thrown base path opts browserPath net m h1, h1,
      apiFetchNoRefresh_thrown base path opts browserPath m]
    exact ⟨rfl, by simp [apiFetchWeb]⟩
  · intro r h1 hne hcase
    rw [apiFetch_first_not401 base path opts browserPath net r h1 hne, h1]
    rcases hcase with hok | hct
    · rw [handleResponse_not_ok r browserPath hok]
      simp [apiFetchWeb, hok]
    · by_cases hok : respOk r.status
      · cases hj : r.json with
        | ok t =>
            rw [handleResponse_ok_json r browserPath t hok hct hj]
            simp [apiFetchWeb, hok, hj]
        | error m =>
            rw [handleResponse_parse_error r browserPath m hok hct hj]
            simp [apiFetchWeb, hok, hj]
      · rw [handleResponse_not_ok r browserPath ((Bool.not_eq_true _).mp hok)]
        simp [apiFetchWeb, (Bool.not_eq_true _).mp hok]

/-- C9: when a terminal response (first, or retried after a successful
refresh) is 2xx with a JSON content type but its body fails to parse, the
parse failure is caught and classified as a transport-level failure: the
result is `ok: false` with status 0 and the parse error's message. -/
theorem apiFetch_json_parse_failure {T : Type} (base path : String)
    (opts : Opts) (browserPath : String) (net : Network T) :
    (∀ (r : Response T) (msg : String), net.first = .success r →
      respOk r.status = true →
      stringIncludes r.contentType "application/json" = true →
      r.json = .error (some msg) →
      (apiFetch base path opts browserPath net).result = .fail msg 0)
    ∧ (∀ (r r2 : Response T) (msg : String), net.first = .success r →
        r.status = 401 → tryRefresh net.refresh = true →
        net.retry = .success r2 → respOk r2.status = true →
        stringIncludes r2.contentType "application/json" = true →
        r2.json = .error (some msg) →
        (apiFetch base path opts browserPath net).result = .fail msg 0) := by
  constructor
  · intro r msg h1 hok hct hj
    rw [apiFetch_first_not401 base path opts browserPath net r h1 (respOk_ne_401 hok),
      handleResponse_parse_error r browserPath (some msg) hok hct hj]
    rfl
  · intro r r2 msg h1 h2 hR h3 hok hct hj
    rw [apiFetch_retry_success base path opts browserPath net r r2 h1 (by simp [h2]) hR h3,
      handleResponse_parse_error r2 browserPath (some msg) hok hct hj]
    rfl

/-- C10: every first response with status 401 joins exactly one refresh
cycle, whatever the request path, options or browser location — there is no
path-based exemption for login or registration requests. -/
theorem apiFetch_no_path_exemption {T : Type} (base path : String)
    (opts : Opts) (browserPath : String) (net : Network T) (r : Response T)
    (h1 : net.first = .success r) (h2 : r.status = 401) :
    (apiFetch base path opts browserPath net).refreshCalls = 1 := by
  cases hR : tryRefresh net.refresh with
  | true =>
      cases h3 : net.retry with
      | success r2 =>
          rw [apiFetch_retry_success base path opts browserPath net r r2 h1 (by simp [h2]) hR h3]
      | thrown m =>
          rw [apiFetch_retry_thrown base path opts browserPath net r m h1 (by simp [h2]) hR h3]
  | false =>
      rw [apiFetch_refresh_failed base path opts browserPath net r h1 (by simp [h2]) hR]

/-!
## Witnesses
-/

/-- Witness for C2 at a concrete 401-then-refresh-then-retry run. -/
theorem apiFetch_refresh_retry_once_witness :
    (apiFetch "b" "/w" {} "/p"
      (⟨.success ⟨401, "", "expired", .error none⟩, RefreshNet.resp 200,
        .success ⟨200, "application/json", "", .ok (5 : Nat)⟩⟩ : Network Nat)).refreshCalls = 1
    ∧ (apiFetch "b" "/w" {} "/p"
      (⟨.success ⟨401, "", "expired", .error none⟩, RefreshNet.resp 200,
        .success ⟨200, "application/json", "", .ok (5 : Nat)⟩⟩ : Network Nat)).mainRequests
      = [mkRequest "b" "/w" {}, mkRequest "b" "/w" {}] := by
  refine ⟨?_, ?_⟩
  · exact (apiFetch_refresh_retry_once "b" "/w" {} "/p"
      (⟨.success ⟨401, "", "expired", .error none⟩, RefreshNet.resp 200,
        .success ⟨200, "application/json", "", .ok (5 : Nat)⟩⟩ : Network Nat)
      ⟨401, "", "expired", .error none⟩ rfl rfl).1
  · exact ((apiFetch_refresh_retry_once "b" "/w" {} "/p"
      (⟨.success ⟨401, "", "expired", .error none⟩, RefreshNet.resp 200,
        .success ⟨200, "application/json", "", .ok (5 : Nat)⟩⟩ : Network Nat)
      ⟨401, "", "expired", .error none⟩ rfl rfl).2.1 (by decide)).1

/-- Witness for C3 at a concrete 2xx JSON response. -/
theorem apiFetch_success_payload_witness :
    (apiFetch "b" "/w" {} "/p"
      (⟨.success ⟨200, "application/json", "", .ok (5 : Nat)⟩,
        RefreshNet.thrown, .thrown none⟩ : Network Nat)).result
      = .ok (.parsed 5) := by
  exact ((apiFetch_success_payload "b" "/w" {} "/p"
      (⟨.success ⟨200, "application/json", "", .ok (5 : Nat)⟩,
        RefreshNet.thrown, .thrown none⟩ : Network Nat)).1
      ⟨200, "application/json", "", .ok (5 : Nat)⟩ rfl (by decide)).1
      (by decide) 5 rfl

/-- Witness for C4 at a concrete 401 with failed refresh on a page that is
neither the login nor the registration screen. -/
theorem apiFetch_failure_taxonomy_witness :
    (apiFetch "b" "/w" {} "/p"
      (⟨.success ⟨401, "", "expired", .error none⟩, RefreshNet.thrown,
        .thrown none⟩ : Network Nat)).result = .fail "expired" 401
    ∧ (apiFetch "b" "/w" {} "/p"
      (⟨.success ⟨401, "", "expired", .error none⟩, RefreshNet.thrown,
        .thrown none⟩ : Network Nat)).navigated = true := by
  have h := (apiFetch_failure_taxonomy "b" "/w" {} "/p"
      (⟨.success ⟨401, "", "expired", .error none⟩, RefreshNet.thrown,
        .thrown none⟩ : Network Nat)).2.1
      ⟨401, "", "expired", .error none⟩ rfl rfl rfl
  exact ⟨by simpa using h.1, by simpa using h.2⟩

/-- Witness for C5 at a concrete thrown transport error with a message. -/
theorem apiFetch_transport_failure_witness :
    (apiFetch "b" "/w" {} "/p"
      (⟨.thrown (some "boom"), RefreshNet.thrown, .thrown none⟩ : Network Nat)).result
      = .fail "boom" 0 := by
  exact (apiFetch_transport_failure "b" "/w" {} "/p"
      (⟨.thrown (some "boom"), RefreshNet.thrown, .thrown none⟩ : Network Nat)).1
      (some "boom") rfl

/-- Witness for C7: a concrete reachable state with one pending refresh, a
five-caller batch issuing exactly one refresh call with all five joined to
it, and a concrete settle clearing the slot. -/
theorem refresh_slot_dedup_witness :
    (0 : Nat) = 0
    ∧ (observeAll ((0 : Fin 5) :: [1, 2, 3, 4]) (initState 5)).issued = 1
    ∧ (observeAll ((0 : Fin 5) :: [1, 2, 3, 4]) (initState 5)).callers 3
        = CPhase.joined 0
    ∧ (settleStep (observeAll ((0 : Fin 5) :: [1, 2, 3, 4]) (initState 5)) 0 false).outcome 0
        = some false
    ∧ (settleStep (refreshOnceStep (initState 1) 0) 0 true).inFlight = none := by
  refine ⟨?_, ?_, ?_, ?_, ?_⟩
  · exact (refresh_slot_dedup 1).1 (refreshOnceStep (initState 1) 0)
      (Reachable.step Reachable.init (CStep.observe401 (initState 1) 0 rfl))
      0 0 ⟨by decide, rfl⟩ ⟨by decide, rfl⟩
  · exact ((refresh_slot_dedup 5).2.1 0 [1, 2, 3, 4] false).1
  · exact ((refresh_slot_dedup 5).2.1 0 [1, 2, 3, 4] false).2.2.1 3 (by decide)
  · exact ((refresh_slot_dedup 5).2.1 0 [1, 2, 3, 4] false).2.2.2.2.1
  · exact (refresh_slot_dedup 1).2.2 (refreshOnceStep (initState 1) 0) 0 true
      (by rw [refreshOnceStep_none (initState 1) 0 rfl]; rfl)

/-- Witness for the amended C8 at a concrete non-401 2xx JSON response. -/
theorem duplicate_clients_refine_canonical_witness :
    (apiFetchNoRefresh "b" "/w" {} "/p"
      (.success ⟨200, "application/json", "", .ok (5 : Nat)⟩)).result
      = (apiFetch "b" "/w" {} "/p"
          (⟨.success ⟨200, "application/json", "", .ok (5 : Nat)⟩,
            RefreshNet.thrown, .thrown none⟩ : Network Nat)).result
    ∧ (apiFetchWeb "b" "/w" {}
        (.success ⟨200, "application/json", "", .ok (5 : Nat)⟩)).result
      = (apiFetch "b" "/w" {} "/p"
          (⟨.success ⟨200, "application/json", "", .ok (5 : Nat)⟩,
            RefreshNet.thrown, .thrown none⟩ : Network Nat)).result := by
  refine ⟨?_, ?_⟩
  · exact ((duplicate_clients_refine_canonical "b" "/w" {} "/p"
      (⟨.success ⟨200, "application/json", "", .ok (5 : Nat)⟩,
        RefreshNet.thrown, .thrown none⟩ : Network Nat)).1
      ⟨200, "application/json", "", .ok (5 : Nat)⟩ rfl (by decide)).1
  · exact (duplicate_clients_refine_canonical "b" "/w" {} "/p"
      (⟨.success ⟨200, "application/json", "", .ok (5 : Nat)⟩,
        RefreshNet.thrown, .thrown none⟩ : Network Nat)).2.2
      ⟨200, "application/json", "", .ok (5 : Nat)⟩ rfl (by decide)
      (Or.inr (by decide))

/-- Witness for C9 at a concrete 2xx JSON response with an unparseable
body. -/
theorem apiFetch_json_parse_failure_witness :
    (apiFetch "b" "/w" {} "/p"
      (⟨.success ⟨200, "application/json", "truncated",
          .error (some "Unexpected end of JSON input")⟩,
        RefreshNet.thrown, .thrown none⟩ : Network Nat)).result
      = .fail "Unexpected end of JSON input" 0 := by
  exact (apiFetch_json_parse_failure "b" "/w" {} "/p"
      (⟨.success ⟨200, "application/json", "truncated",
          .error (some "Unexpected end of JSON input")⟩,
        RefreshNet.thrown, .thrown none⟩ : Network Nat)).1
      ⟨200, "application/json", "truncated", .error (some "Unexpected end of JSON input")⟩
      "Unexpected end of JSON input" rfl (by decide) (by decide) rfl

/-- Witness for C10 at a concrete 401 on a login-related request path and
login browser location: the refresh is still joined. -/
theorem apiFetch_no_path_exemption_witness :
    (apiFetch "b" "/auth/login" {} "/login"
      (⟨.success ⟨401, "", "", .error none⟩, RefreshNet.resp 500,
        .thrown none⟩ : Network Nat)).refreshCalls = 1 := by
  exact apiFetch_no_path_exemption "b" "/auth/login" {} "/login"
      (⟨.success ⟨401, "", "", .error none⟩, RefreshNet.resp 500,
        .thrown none⟩ : Network Nat)
      ⟨401, "", "", .error none⟩ rfl rfl

end PMAgentOS
